import Mathlib

/-!
Shallow embedding of the moonshot red-teaming orchestration core, covering:

* `moonshot/data/runners-modules/redteaming.py` — the `RedTeaming.generate`
  orchestrator: Part 1 (module resolution) and Part 2 (sequential execution),
* `moonshot/data/metrics/exactstrmatch.py` — the `ExactStrMatch` metric,
* `moonshot/integrations/cli/redteam/session.py` — the CLI entry points
  `manual_red_teaming` and `run_attack_module`.

Pure computations are translated into Lean functions; side effects (printing,
runner loading, red-teaming runs, session reloads) are made explicit as event
traces; external collaborators that are not part of this repository
(`Connector.create`, `Metric.load`, `ContextStrategy.load`, `AttackModule.load`,
`api_load_runner`, `runner.run_red_teaming`, `api_load_session`, the module
`execute()` bodies) are abstracted as environments recording whether each call
succeeds and with what outcome.  Python real arithmetic is modelled over `ℚ`.
-/

/-! ## Part A: `redteaming.py` — the `RedTeaming.generate` orchestrator -/

/-- One entry of `runner_args["attack_strategies"]`.  `Option` models optional
dict keys: `none` means the key is absent (the Python code tests membership
with `in` or uses `.get(key, default)`). -/
structure AttackStrategyEntry where
  attack_module_id : Option String
  metric_ids : Option (List String)
  context_strategy_ids : Option (List String)
  dataset_ids : Option (List String)
  prompt_template_ids : Option (List String)
  prompt : Option String
deriving DecidableEq

/-- The `runner_args` dict as read by `RedTeaming.generate` (lines 67-69):
`num_of_prompts` (default 0), `system_prompt` (default `""`), and
`attack_strategies` (default `None`). -/
structure RunnerArgs where
  num_of_prompts : Nat
  system_prompt : String
  attack_strategies : Option (List AttackStrategyEntry)

/-- The `AttackModuleArguments` value object constructed at lines 104-116 of
`redteaming.py`.  Loaded connector / metric / context-strategy instances are
modelled by their identifiers; the opaque `db_instance` handle is omitted. -/
structure AttackModuleArguments where
  name : String
  num_of_prompts : Nat
  connector_instances : List String
  datasets : List String
  prompt_templates : List String
  prompt : String
  metric_instances : List String
  context_strategies : List String
deriving DecidableEq

/-- Environment abstracting the external loaders and the attack-module
`execute()` bodies: which identifiers resolve, and what each loaded module's
execution yields (`Except.error` models a raised exception). -/
structure RtEnv where
  endpointOk : String → Bool
  metricOk : String → Bool
  contextStrategyOk : String → Bool
  attackModuleOk : String → Bool
  execResult : AttackModuleArguments → Except String String

/-- A Python list comprehension `[load(i) for i in ids]` loading every id:
it succeeds with all instances (modelled by the ids themselves) iff every
single load succeeds; the first failing load raises. -/
def loadAll (ok : String → Bool) (ids : List String) : Option (List String) :=
  if ids.all ok then some ids else none

/-- The `AttackModuleArguments(...)` constructor call at lines 104-116:
`name` from the entry's `attack_module_id` (default `""`), `num_of_prompts`
is the literal `0`, datasets / prompt templates / prompt from the entry with
defaults, plus the already-loaded connector, metric and context-strategy
instances. -/
def mkAttackModuleArguments (connectors : List String) (e : AttackStrategyEntry)
    (metric_instances context_strategy_instances : List String) : AttackModuleArguments :=
  { name := e.attack_module_id.getD ""
    num_of_prompts := 0
    connector_instances := connectors
    datasets := e.dataset_ids.getD []
    prompt_templates := e.prompt_template_ids.getD []
    prompt := e.prompt.getD ""
    metric_instances := metric_instances
    context_strategies := context_strategy_instances }

/-- Resolution of one attack-strategy entry (lines 85-117): load its metrics
(if the `metric_ids` key is present), its context strategies (if the
`context_strategy_ids` key is present), then `AttackModule.load` on the
constructed arguments.  `none` models an exception raised by any of the
loads. -/
def resolveEntry (env : RtEnv) (connectors : List String)
    (e : AttackStrategyEntry) : Option AttackModuleArguments :=
  match (match e.metric_ids with
         | some ids => loadAll env.metricOk ids
         | none => some []) with
  | none => none
  | some metric_instances =>
    match (match e.context_strategy_ids with
           | some ids => loadAll env.contextStrategyOk ids
           | none => some []) with
    | none => none
    | some context_strategy_instances =>
      if env.attackModuleOk (mkAttackModuleArguments connectors e metric_instances
          context_strategy_instances).name then
        some (mkAttackModuleArguments connectors e metric_instances
          context_strategy_instances)
      else none

/-- The `for attack_strategy_args in ...` loop of Part 1 (lines 84-118).
The whole loop body runs inside the single `try` of lines 76-121, so the
first entry that fails to resolve raises out of the loop: entries already
appended to `loaded_attack_modules` are kept, the failing entry and every
entry after it are never loaded. -/
def loadLoop (env : RtEnv) (connectors : List String) :
    List AttackStrategyEntry → List AttackModuleArguments
  | [] => []
  | e :: rest =>
    match resolveEntry env connectors e with
    | some m => m :: loadLoop env connectors rest
    | none => []

/-- Part 1 of `RedTeaming.generate` (lines 74-121): load a connector per
endpoint (lines 78-81; a failure there raises before any entry is processed),
then iterate the attack strategies (iterating `None` raises a `TypeError`,
caught by the same `except`, leaving no module loaded). -/
def loadPhase (env : RtEnv) (endpoints : List String) (ra : RunnerArgs) :
    List AttackModuleArguments :=
  if endpoints.all env.endpointOk then
    match ra.attack_strategies with
    | some entries => loadLoop env endpoints entries
    | none => []
  else []

/-- Observable execution events of Part 2, indexed by the position of the
module in `loaded_attack_modules`: `start i` when module `i`'s `execute()`
begins, `finish i` when it has fully completed. -/
inductive RtEvent where
  | start (idx : Nat)
  | finish (idx : Nat)
deriving DecidableEq

/-- The `for attack_module in loaded_attack_modules` loop of Part 2
(lines 129-138), returning the event trace, the collected
`responses_from_attack_module`, and the exception propagated out of
`generate` if some `await attack_module.execute()` raised (there is no
`try` around the loop body, so a raise aborts the remaining queue). -/
def runLoop (env : RtEnv) : Nat → List AttackModuleArguments →
    List RtEvent × List String × Option String
  | _, [] => ([], [], none)
  | i, m :: rest =>
    match env.execResult m with
    | Except.ok resp =>
      let r := runLoop env (i + 1) rest
      (RtEvent.start i :: RtEvent.finish i :: r.1, resp :: r.2.1, r.2.2)
    | Except.error e => ([RtEvent.start i], [], some e)

/-- The value returned by `RedTeaming.generate`: if Part 2 raised, the
exception propagates to the caller; otherwise the function executes
`return {}` (line 139) — an empty dict, modelled as an empty association
list; the collected responses are discarded. -/
def generateRun (env : RtEnv) (endpoints : List String) (ra : RunnerArgs) :
    Except String (List (String × String)) :=
  let ms := loadPhase env endpoints ra
  match (runLoop env 0 ms).2.2 with
  | some e => Except.error e
  | none => Except.ok []

/-- The fully sequential event trace of `n` completed modules starting at
index `i0`: each module starts and finishes before the next one starts. -/
def okTrace : Nat → Nat → List RtEvent
  | _, 0 => []
  | i0, n + 1 => RtEvent.start i0 :: RtEvent.finish i0 :: okTrace (i0 + 1) n

/-- The module index an event refers to. -/
def eventIdx : RtEvent → Nat
  | RtEvent.start k => k
  | RtEvent.finish k => k

/-! ## Part B: `exactstrmatch.py` — the `ExactStrMatch` metric -/

/-- A JSON value as far as the metric output schema is concerned: numeric or
string fields. -/
inductive JValue where
  | num (q : ℚ)
  | str (s : String)
deriving DecidableEq

/-- The dict returned by a metric's `get_results`, as an association list. -/
abbrev ScoreDict := List (String × JValue)

/-- A JSON-schema primitive type. -/
inductive JTy where
  | num
  | str
deriving DecidableEq

/-- The structural contract of a metric output schema: the declared
properties with their types, and which property names are required. -/
structure JSchema where
  properties : List (String × JTy)
  required : List String

/-- Whether a JSON value has a declared primitive type. -/
def tyMatches : JTy → JValue → Bool
  | JTy.num, JValue.num _ => true
  | JTy.str, JValue.str _ => true
  | _, _ => false

/-- The `ExactStrMatch.output_schema` class variable (lines 13-25): an object
with a single numeric property `exact_str_match`, which is required. -/
def ExactStrMatch.output_schema : JSchema :=
  { properties := [("exact_str_match", JTy.num)]
    required := ["exact_str_match"] }

/-- Modelled from the spec: `MetricInterface.validate_output` (the metric
base class is not under `src/`).  Per the spec's §4.6, the returned dict must
validate against "a small structural contract: named numeric/string fields
and which are required": every required property must be present, and every
present field that the schema declares must have the declared type. -/
def validate_output (d : ScoreDict) (schema : JSchema) : Bool :=
  schema.required.all (fun k => (d.lookup k).isSome) &&
    d.all (fun kv =>
      match schema.properties.lookup kv.1 with
      | some ty => tyMatches ty kv.2
      | none => true)

/-- The error conditions relevant to `get_results`: the `ZeroDivisionError`
Python raises on `correct / total` with `total = 0`, the `RuntimeError`
raised on failed schema validation (line 79), and the spec's §7
`InvalidInput` condition (which the code never raises). -/
inductive MetricError where
  | zeroDivision
  | schemaValidation
  | invalidInput
deriving DecidableEq

/-- The `for (result, target) in zip(predicted_results, targets)` counting
loop of lines 67-72: the number of pairs produced by `zip` whose components
are equal. -/
def countCorrect : List String → List String → Nat
  | r :: rs, t :: ts => (if r = t then 1 else 0) + countCorrect rs ts
  | _, _ => 0

/-- The method `ExactStrMatch.get_results` (lines 50-81): `total = len(predicted_results)`;
the division `correct / total` raises `ZeroDivisionError` when `total = 0`;
otherwise the response dict carries `correct / total` (over `ℚ`), is checked
against the output schema, and is returned iff validation passes, a
`RuntimeError` being raised otherwise. -/
def ExactStrMatch.get_results (predicted_results targets : List String) :
    Except MetricError ScoreDict :=
  let total := predicted_results.length
  if total = 0 then Except.error MetricError.zeroDivision
  else
    let correct := countCorrect predicted_results targets
    let response_dict : ScoreDict :=
      [("exact_str_match", JValue.num ((correct : ℚ) / (total : ℚ)))]
    if validate_output response_dict ExactStrMatch.output_schema then
      Except.ok response_dict
    else Except.error MetricError.schemaValidation

/-- The number of positions at which the predicted result equals the target:
indices `i < predicted.length` with `predicted[i]? = targets[i]?`. -/
def countMatchIdx (p t : List String) : Nat :=
  ((List.range p.length).filter (fun i => decide (p[i]? = t[i]?))).length

/-! ## Part C: `session.py` — CLI red-team session commands -/

/-- Modelled from the spec: `Session.DEFAULT_CONTEXT_STRATEGY_PROMPT` lives in
`moonshot/src/redteaming/session/session.py`, which is not under `src/`; the
spec's §3 describes it as the default number of previous prompts for a
context strategy.  Its concrete value is irrelevant to every theorem below. -/
def Session.DEFAULT_CONTEXT_STRATEGY_PROMPT : Nat := 5

/-- The fields of the global `active_session` dict read by the functions
under study.  `""` models a falsy/absent context strategy or prompt
template (Python string truthiness). -/
structure ActiveSession where
  session_id : String
  context_strategy : String
  prompt_template : String
  cs_num_of_prev_prompts : Nat
deriving DecidableEq

/-- The parsed command-line arguments of `run_attack_module`
(`automated_rt_session_args`, lines 692-741): two positional arguments and
the optional `--system_prompt`, `--context_strategy`, `--num_of_prev_prompts`,
`--prompt-template` and `--metric`. -/
structure CliArgs where
  attack_module_id : String
  prompt : String
  system_prompt : Option String
  context_strategy : Option String
  num_of_prev_prompts : Option String
  prompt_template : Option String
  metric : Option String
deriving DecidableEq

/-- One element of the `context_strategy_info` list (lines 559-564). -/
structure ContextStrategyInfo where
  context_strategy_id : String
  num_of_prev_prompts : Nat
deriving DecidableEq

/-- One element of the `attack_strategy` list formed at lines 569-578. -/
structure CliAttackStrategy where
  attack_module_id : String
  prompt : String
  system_prompt : String
  context_strategy_info : List ContextStrategyInfo
  prompt_template_ids : List String
  metric_ids : List String
deriving DecidableEq

/-- The `runner_args` dict passed to `runner.run_red_teaming` by
`run_attack_module` (lines 579-580). -/
structure CliRunnerArgs where
  attack_strategies : List CliAttackStrategy
deriving DecidableEq

/-- The `manual_rt_args` payload built by `manual_red_teaming`
(lines 500-506). -/
structure ManualRtArgs where
  prompt : String
  context_strategy_info : List ContextStrategyInfo
  prompt_template_ids : List String
deriving DecidableEq

/-- Python truthiness of an optional string argument: `None` and `""` are
falsy. -/
def optTruthy : Option String → Bool
  | some s => !(s == "")
  | none => false

/-- The string value of an optional argument, `""` when absent. -/
def optStr (o : Option String) : String := o.getD ""

/-- The pure core of `run_attack_module` (lines 535-580): the `runner_args`
dict it forms from the active session and the CLI arguments.  Per the
comment at line 539, context strategy and prompt template "should come from
the session instead of the command": `context_strategy_info` is built from
`active_session["context_strategy"]` and
`active_session["cs_num_of_prev_prompts"]` only. -/
def buildRunnerArgs (sess : ActiveSession) (args : CliArgs) : CliRunnerArgs :=
  let attack_module_id := args.attack_module_id
  let prompt := args.prompt
  let system_prompt := if optTruthy args.system_prompt then optStr args.system_prompt else ""
  let prompt_template := if sess.prompt_template ≠ "" then [sess.prompt_template] else []
  let context_strategy := sess.context_strategy
  let num_of_prev_prompts :=
    if sess.context_strategy ≠ "" then sess.cs_num_of_prev_prompts
    else Session.DEFAULT_CONTEXT_STRATEGY_PROMPT
  let metric := if optTruthy args.metric then [optStr args.metric] else []
  let context_strategy_info :=
    if context_strategy ≠ "" then
      [{ context_strategy_id := context_strategy
         num_of_prev_prompts := num_of_prev_prompts }]
    else []
  { attack_strategies :=
      [{ attack_module_id := attack_module_id
         prompt := prompt
         system_prompt := system_prompt
         context_strategy_info := context_strategy_info
         prompt_template_ids := prompt_template
         metric_ids := metric }] }

/-- The `context_strategy_info` list built by `manual_red_teaming`
(lines 481-498), identical in shape to the one of `run_attack_module`. -/
def buildManualRtArgs (sess : ActiveSession) (user_prompt : String) : ManualRtArgs :=
  let prompt_template := if sess.prompt_template ≠ "" then [sess.prompt_template] else []
  let context_strategy := sess.context_strategy
  let num_of_prev_prompts :=
    if sess.context_strategy ≠ "" then sess.cs_num_of_prev_prompts
    else Session.DEFAULT_CONTEXT_STRATEGY_PROMPT
  let context_strategy_info :=
    if context_strategy ≠ "" then
      [{ context_strategy_id := context_strategy
         num_of_prev_prompts := num_of_prev_prompts : ContextStrategyInfo }]
    else []
  { prompt := user_prompt
    context_strategy_info := context_strategy_info
    prompt_template_ids := prompt_template }

/-- The session metadata returned by `api_load_session` (no
`cs_num_of_prev_prompts` key — that key is only ever set by
`new_session`/`use_session`). -/
structure SessionMeta where
  session_id : String
  context_strategy : String
  prompt_template : String
deriving DecidableEq

/-- The `active_session.update(session_metadata)` call inside `_reload_session`
(line 609): keys present in the metadata overwrite, the
`cs_num_of_prev_prompts` key is untouched. -/
def mergeSession (old : ActiveSession) (md : SessionMeta) : ActiveSession :=
  { session_id := md.session_id
    context_strategy := md.context_strategy
    prompt_template := md.prompt_template
    cs_num_of_prev_prompts := old.cs_num_of_prev_prompts }

/-- Observable side effects of the CLI functions. -/
inductive CliEffect where
  | printMsg (msg : String)
  | loadRunner (runner_id : String)
  | runManualRT (args : ManualRtArgs)
  | runAutoRT (args : CliRunnerArgs)
  | closeRunner
  | loadSessionMeta (runner_id : String)
  | chatDisplay
deriving DecidableEq

/-- Environment abstracting the external API calls made by the CLI
functions: whether `api_load_runner` and `runner.run_red_teaming` succeed
(with the raised message on failure) and what `api_load_session` returns. -/
structure CliEnv where
  loadRunner : String → Except String Unit
  runManualRt : ManualRtArgs → Except String Unit
  runAutoRt : CliRunnerArgs → Except String Unit
  loadSession : String → Option SessionMeta

/-- The no-active-session message printed at lines 476 and 533. -/
def noSessionMsg : String :=
  "There is no active session. Activate a session to start red teaming."

/-- The message `_reload_session` prints when `api_load_session` returns a
falsy value (lines 604-608). -/
def cannotFindSessionMsg : String :=
  "[Session] Cannot find a session with the existing Runner ID. Please try again."

/-- The function `manual_red_teaming` (lines 463-516): with no active session, print and
return; otherwise build the manual red-teaming arguments, then inside a
`try`: load the runner, run red teaming, close the runner and reload the
session (an exception anywhere in the `try` is caught and printed).  Returns
the effect trace and the resulting `active_session`. -/
def manualRedTeaming (sess : Option ActiveSession) (user_prompt : String)
    (env : CliEnv) : List CliEffect × Option ActiveSession :=
  match sess with
  | none => ([CliEffect.printMsg noSessionMsg], none)
  | some s =>
    let mrt := buildManualRtArgs s user_prompt
    match env.loadRunner s.session_id with
    | Except.error e =>
      ([CliEffect.loadRunner s.session_id,
        CliEffect.printMsg ("[manual_red_teaming]: str(" ++ e ++ ")")], some s)
    | Except.ok _ =>
      match env.runManualRt mrt with
      | Except.error e =>
        ([CliEffect.loadRunner s.session_id, CliEffect.runManualRT mrt,
          CliEffect.printMsg ("[manual_red_teaming]: str(" ++ e ++ ")")], some s)
      | Except.ok _ =>
        let fx := [CliEffect.loadRunner s.session_id, CliEffect.runManualRT mrt,
          CliEffect.closeRunner, CliEffect.loadSessionMeta s.session_id]
        match env.loadSession s.session_id with
        | none => (fx ++ [CliEffect.printMsg cannotFindSessionMsg], some s)
        | some md => (fx, some (mergeSession s md))

/-- The function `run_attack_module` (lines 519-591): with no active session, print and
return; otherwise form the runner arguments from the session and the CLI
arguments, load the runner, run red teaming, close the runner, reload the
session and update the chat display (`update_chat_display` runs regardless
of the reload outcome; an exception in the `try` is caught and printed). -/
def runAttackModule (sess : Option ActiveSession) (args : CliArgs)
    (env : CliEnv) : List CliEffect × Option ActiveSession :=
  match sess with
  | none => ([CliEffect.printMsg noSessionMsg], none)
  | some s =>
    let runner_args := buildRunnerArgs s args
    match env.loadRunner s.session_id with
    | Except.error e =>
      ([CliEffect.loadRunner s.session_id,
        CliEffect.printMsg ("[run_attack_module]: str(" ++ e ++ ")")], some s)
    | Except.ok _ =>
      match env.runAutoRt runner_args with
      | Except.error e =>
        ([CliEffect.loadRunner s.session_id, CliEffect.runAutoRT runner_args,
          CliEffect.printMsg ("[run_attack_module]: str(" ++ e ++ ")")], some s)
      | Except.ok _ =>
        let fx := [CliEffect.loadRunner s.session_id, CliEffect.runAutoRT runner_args,
          CliEffect.closeRunner, CliEffect.loadSessionMeta s.session_id]
        match env.loadSession s.session_id with
        | none =>
          (fx ++ [CliEffect.printMsg cannotFindSessionMsg, CliEffect.chatDisplay], some s)
        | some md => (fx ++ [CliEffect.chatDisplay], some (mergeSession s md))

/-! ## Concrete instances used by counterexamples and witnesses -/

/-- A concrete resolution/execution environment: every id resolves except the
metric `"missing_metric"`, and every module executes successfully except the
one named `"boom"`. -/
def exEnv : RtEnv :=
  { endpointOk := fun _ => true
    metricOk := fun s => !(s == "missing_metric")
    contextStrategyOk := fun _ => true
    attackModuleOk := fun _ => true
    execResult := fun m =>
      if m.name == "boom" then Except.error "boom"
      else Except.ok ("ok:" ++ m.name) }

/-- A well-formed attack-strategy entry for the attack module named `n`. -/
def goodEntry (n : String) : AttackStrategyEntry :=
  { attack_module_id := some n
    metric_ids := none
    context_strategy_ids := none
    dataset_ids := none
    prompt_template_ids := none
    prompt := some "p" }

/-- An entry whose (only) metric id does not resolve. -/
def badEntry : AttackStrategyEntry :=
  { goodEntry "am_bad" with metric_ids := some ["missing_metric"] }

/-- The loaded module corresponding to `goodEntry n` in `exEnv`. -/
def okModule (n : String) : AttackModuleArguments :=
  mkAttackModuleArguments ["ep1"] (goodEntry n) [] []

/-- A loaded module whose `execute()` raises in `exEnv`. -/
def boomModule : AttackModuleArguments := okModule "boom"

/-- A configuration with a single valid attack strategy (and a nonzero
`num_of_prompts` in the runner args). -/
def raOneGood : RunnerArgs :=
  { num_of_prompts := 3
    system_prompt := ""
    attack_strategies := some [goodEntry "am1"] }

/-- A configuration with two valid attack strategies. -/
def raTwoGood : RunnerArgs :=
  { num_of_prompts := 0
    system_prompt := ""
    attack_strategies := some [goodEntry "am1", goodEntry "am2"] }

/-- A configuration with 3 attack-strategy entries of which exactly the
first is invalid (its metric id does not resolve). -/
def raThreeOneBad : RunnerArgs :=
  { num_of_prompts := 0
    system_prompt := ""
    attack_strategies := some [badEntry, goodEntry "am2", goodEntry "am3"] }

/-! ## Lemmas about the `ExactStrMatch` metric -/

/-- The `zip`-based counter never exceeds the length of the predicted list. -/
theorem countCorrect_le_length : ∀ (p t : List String), countCorrect p t ≤ p.length := by
  intro p
  induction p with
  | nil => intro t; cases t <;> simp [countCorrect]
  | cons a p' ih =>
    intro t
    cases t with
    | nil => simp [countCorrect]
    | cons b t' =>
      simp only [countCorrect, List.length_cons]
      have := ih t'
      split <;> omega

/-- Counting matching positions over an empty target list gives zero. -/
theorem countMatchIdx_nil_right (p : List String) : countMatchIdx p [] = 0 := by
  unfold countMatchIdx
  rw [List.length_eq_zero, List.filter_eq_nil_iff]
  intro i hi
  rw [List.mem_range] at hi
  simp [List.getElem?_eq_getElem hi]

/-- Unfolding `countMatchIdx` at a cons on both sides. -/
theorem countMatchIdx_cons (a b : String) (p t : List String) :
    countMatchIdx (a :: p) (b :: t) =
      (if a = b then 1 else 0) + countMatchIdx p t := by
  unfold countMatchIdx
  rw [List.length_cons, List.range_succ_eq_map, List.filter_cons]
  have hmap :
      List.filter (fun i => decide ((a :: p)[i]? = (b :: t)[i]?))
          ((List.range p.length).map Nat.succ)
        = (List.filter (fun i => decide (p[i]? = t[i]?)) (List.range p.length)).map
            Nat.succ := by
    rw [List.filter_map]
    simp only [Function.comp_def, Nat.succ_eq_add_one, List.getElem?_cons_succ]
  by_cases hab : a = b
  · subst hab
    simp [hmap]
    omega
  · simp [hmap, hab]

/-- The loop of lines 70-72 counts exactly the positions at which the
predicted result equals the target. -/
theorem countCorrect_eq_countMatchIdx :
    ∀ (p t : List String), countCorrect p t = countMatchIdx p t := by
  intro p
  induction p with
  | nil => intro t; cases t <;> simp [countCorrect, countMatchIdx]
  | cons a p' ih =>
    intro t
    cases t with
    | nil => simp [countCorrect, countMatchIdx_nil_right]
    | cons b t' => rw [countMatchIdx_cons, countCorrect, ih t']

/-- The singleton response dict always validates against the declared
output schema. -/
theorem validate_output_single (q : ℚ) :
    validate_output [("exact_str_match", JValue.num q)] ExactStrMatch.output_schema = true := rfl

/-- C3: calling `ExactStrMatch.get_results` on a zero-length
`predicted_results` does not fail with the spec's `InvalidInput` condition:
the code evaluates `correct / total` with `total = 0` and raises exactly the
arithmetic `ZeroDivisionError` the claim rules out. -/
theorem C3_zero_length_zero_division :
    ExactStrMatch.get_results [] [] = Except.error MetricError.zeroDivision ∧
    MetricError.zeroDivision ≠ MetricError.invalidInput :=
  ⟨rfl, by decide⟩

/-- C6: for predicted/target lists of equal nonzero length,
`ExactStrMatch.get_results` returns the dict mapping `"exact_str_match"` to
(number of positions at which the predicted result equals the target) divided
by the length, a score that always lies in `[0, 1]`. -/
theorem C6_exact_str_match_score (p t : List String)
    (h1 : p.length = t.length) (h2 : p.length ≠ 0) :
    ExactStrMatch.get_results p t =
      Except.ok [("exact_str_match",
        JValue.num ((countMatchIdx p t : ℚ) / (p.length : ℚ)))] ∧
    0 ≤ ((countMatchIdx p t : ℚ) / (p.length : ℚ)) ∧
    ((countMatchIdx p t : ℚ) / (p.length : ℚ)) ≤ 1 := by
  have hc : countCorrect p t = countMatchIdx p t := countCorrect_eq_countMatchIdx p t
  have hle : countMatchIdx p t ≤ p.length := hc ▸ countCorrect_le_length p t
  refine ⟨?_, ?_, ?_⟩
  · simp only [ExactStrMatch.get_results]
    rw [if_neg h2, if_pos (validate_output_single _), hc]
  · apply div_nonneg
    · exact_mod_cast Nat.zero_le _
    · exact_mod_cast Nat.zero_le _
  · rw [div_le_one]
    · exact_mod_cast hle
    · exact_mod_cast Nat.pos_of_ne_zero h2

/-- Witness for C6 at a concrete input of length 2 with one matching
position. -/
theorem C6_witness :
    ExactStrMatch.get_results ["a", "b"] ["a", "c"] =
      Except.ok [("exact_str_match",
        JValue.num ((countMatchIdx ["a", "b"] ["a", "c"] : ℚ) /
          ((["a", "b"] : List String).length : ℚ)))] ∧
    0 ≤ ((countMatchIdx ["a", "b"] ["a", "c"] : ℚ) /
      ((["a", "b"] : List String).length : ℚ)) ∧
    ((countMatchIdx ["a", "b"] ["a", "c"] : ℚ) /
      ((["a", "b"] : List String).length : ℚ)) ≤ 1 :=
  C6_exact_str_match_score ["a", "b"] ["a", "c"] rfl (by decide)

/-- C7: every dict returned by `ExactStrMatch.get_results` validates against
the metric's declared output schema (an object whose required field
`exact_str_match` is numeric); a validation failure would surface as the
`Except.error` of this scoring call alone, never as a returned value. -/
theorem C7_output_schema_valid (p t : List String) (d : ScoreDict)
    (h : ExactStrMatch.get_results p t = Except.ok d) :
    validate_output d ExactStrMatch.output_schema = true := by
  simp only [ExactStrMatch.get_results] at h
  by_cases hl : p.length = 0
  · rw [if_pos hl] at h
    exact absurd h (by simp)
  · rw [if_neg hl] at h
    split at h
    · rename_i hv
      injection h with h'
      rw [← h']
      exact hv
    · exact absurd h (by simp)

/-- Witness for C7 at a concrete input: the returned singleton dict carries a
numeric `exact_str_match` field, which the schema accepts. -/
theorem C7_witness :
    validate_output [("exact_str_match", JValue.num 1)] ExactStrMatch.output_schema = true :=
  C7_output_schema_valid ["a"] ["a"] [("exact_str_match", JValue.num 1)] (by
    norm_num [ExactStrMatch.get_results, countCorrect, validate_output,
      ExactStrMatch.output_schema, tyMatches, List.lookup])

/-! ## Lemmas about the orchestrator loops -/

/-- Every event produced by `runLoop` starting at index `i0` refers to a
module index at least `i0`. -/
theorem runLoop_event_idx_ge (env : RtEnv) :
    ∀ (ms : List AttackModuleArguments) (i0 : Nat) (ev : RtEvent),
      ev ∈ (runLoop env i0 ms).1 → i0 ≤ eventIdx ev := by
  intro ms
  induction ms with
  | nil => intro i0 ev h; simp [runLoop] at h
  | cons m tl ih =>
    intro i0 ev h
    cases hx : env.execResult m with
    | ok r =>
      simp only [runLoop, hx, List.mem_cons] at h
      rcases h with h | h | h
      · subst h; simp [eventIdx]
      · subst h; simp [eventIdx]
      · exact le_trans (Nat.le_succ i0) (ih (i0 + 1) ev h)
    | error e =>
      simp only [runLoop, hx, List.mem_singleton] at h
      subst h; simp [eventIdx]

/-- If module `i0 + j` starts at all, then the trace begins with the full
start/finish pairs of the `j` modules before it, in order, followed by that
start event: no later module's event precedes it and every earlier module
has fully completed before it begins. -/
theorem runLoop_start_shape (env : RtEnv) :
    ∀ (ms : List AttackModuleArguments) (i0 j : Nat),
      RtEvent.start (i0 + j) ∈ (runLoop env i0 ms).1 →
      ∃ rest, (runLoop env i0 ms).1 =
        okTrace i0 j ++ RtEvent.start (i0 + j) :: rest := by
  intro ms
  induction ms with
  | nil => intro i0 j h; simp [runLoop] at h
  | cons m tl ih =>
    intro i0 j h
    cases hx : env.execResult m with
    | error e =>
      simp only [runLoop, hx, List.mem_singleton] at h
      have hj : j = 0 := by injection h with h'; omega
      subst hj
      exact ⟨[], by simp [runLoop, hx, okTrace]⟩
    | ok r =>
      simp only [runLoop, hx, List.mem_cons] at h
      cases j with
      | zero =>
        refine ⟨RtEvent.finish i0 :: (runLoop env (i0 + 1) tl).1, ?_⟩
        simp [runLoop, hx, okTrace]
      | succ j' =>
        have hmem : RtEvent.start ((i0 + 1) + j') ∈ (runLoop env (i0 + 1) tl).1 := by
          have hidx : i0 + (j' + 1) = (i0 + 1) + j' := by omega
          rcases h with h | h | h
          · exfalso; injection h with h'; omega
          · exact absurd h (by simp)
          · rw [hidx] at h; exact h
        obtain ⟨rest, hrest⟩ := ih (i0 + 1) j' hmem
        refine ⟨rest, ?_⟩
        simp only [runLoop, hx]
        rw [hrest, okTrace]
        have hidx : (i0 + 1) + j' = i0 + (j' + 1) := by omega
        rw [hidx]
        simp

/-- If the modules of `pre` all execute successfully and `m` raises, the
Part 2 loop runs exactly the modules of `pre` to completion, starts `m`,
and propagates `m`'s exception; no module after `m` ever starts. -/
theorem runLoop_aborts_aux (env : RtEnv) (m : AttackModuleArguments) (e : String)
    (hm : env.execResult m = Except.error e) :
    ∀ (pre : List AttackModuleArguments) (i0 : Nat) (post : List AttackModuleArguments),
      (∀ x ∈ pre, (env.execResult x).isOk = true) →
      ∃ rs, runLoop env i0 (pre ++ m :: post) =
        (okTrace i0 pre.length ++ [RtEvent.start (i0 + pre.length)], rs, some e) := by
  intro pre
  induction pre with
  | nil =>
    intro i0 post _
    exact ⟨[], by simp [runLoop, hm, okTrace]⟩
  | cons x tl ih =>
    intro i0 post hpre
    have hx : (env.execResult x).isOk = true := hpre x (List.mem_cons_self x tl)
    obtain ⟨r, hr⟩ : ∃ r, env.execResult x = Except.ok r := by
      cases hxx : env.execResult x with
      | ok r => exact ⟨r, rfl⟩
      | error e' => rw [hxx] at hx; simp [Except.isOk, Except.toBool] at hx
    obtain ⟨rs, hrs⟩ := ih (i0 + 1) post (fun y hy => hpre y (List.mem_cons_of_mem x hy))
    refine ⟨r :: rs, ?_⟩
    simp only [List.cons_append, runLoop, hr]
    rw [List.append_eq, hrs, List.length_cons, okTrace]
    have hidx : (i0 + 1) + tl.length = i0 + (tl.length + 1) := by omega
    rw [hidx]
    simp

/-- An entry that resolves yields arguments obtained from the
`AttackModuleArguments(...)` constructor call, whose `num_of_prompts` is the
literal `0`. -/
theorem resolveEntry_num_of_prompts (env : RtEnv) (connectors : List String)
    (e : AttackStrategyEntry) (m : AttackModuleArguments)
    (h : resolveEntry env connectors e = some m) : m.num_of_prompts = 0 := by
  unfold resolveEntry at h
  split at h
  · exact absurd h (by simp)
  · split at h
    · exact absurd h (by simp)
    · split at h
      · injection h with h'
        rw [← h']
        rfl
      · exact absurd h (by simp)

/-- Every module in the loaded list comes from resolving some entry. -/
theorem loadLoop_mem (env : RtEnv) (connectors : List String) :
    ∀ (es : List AttackStrategyEntry) (m : AttackModuleArguments),
      m ∈ loadLoop env connectors es →
      ∃ e, resolveEntry env connectors e = some m := by
  intro es
  induction es with
  | nil => intro m h; simp [loadLoop] at h
  | cons a tl ih =>
    intro m h
    cases hx : resolveEntry env connectors a with
    | some v =>
      simp only [loadLoop, hx, List.mem_cons] at h
      rcases h with h | h
      · exact ⟨a, by rw [hx, h]⟩
      · exact ih m h
    | none => simp [loadLoop, hx] at h

/-- C1 counterexample: a configuration with 3 attack-strategy entries of
which exactly the first is invalid (its metric id is unknown while the other
two entries resolve) yields 0 executed entries, not the 2 the claim
requires — the single `try` around the whole loading loop aborts resolution
of every remaining entry. -/
theorem C1_counterexample :
    (resolveEntry exEnv ["ep1"] badEntry).isNone = true ∧
    (resolveEntry exEnv ["ep1"] (goodEntry "am2")).isSome = true ∧
    (resolveEntry exEnv ["ep1"] (goodEntry "am3")).isSome = true ∧
    (loadPhase exEnv ["ep1"] raThreeOneBad).length = 0 ∧
    (loadPhase exEnv ["ep1"] raThreeOneBad).length ≠ 2 :=
  ⟨by decide, by decide, by decide, by decide, by decide⟩

/-- C1 as amended: a resolution failure aborts the loading loop rather than
dropping only the failing entry — the execution set is exactly the prefix of
entries before the first failing one; the failing entry and every entry
after it (valid or not) are dropped. -/
theorem C1_resolution_prefix (env : RtEnv) (connectors : List String)
    (pre post : List AttackStrategyEntry) (bad : AttackStrategyEntry)
    (hpre : ∀ a ∈ pre, (resolveEntry env connectors a).isSome = true)
    (hbad : resolveEntry env connectors bad = none) :
    loadLoop env connectors (pre ++ bad :: post) =
      pre.filterMap (resolveEntry env connectors) ∧
    (loadLoop env connectors (pre ++ bad :: post)).length = pre.length := by
  revert hpre
  induction pre with
  | nil => intro _; simp [loadLoop, hbad]
  | cons a tl ih =>
    intro hpre
    have ha := hpre a (List.mem_cons_self a tl)
    obtain ⟨v, hv⟩ := Option.isSome_iff_exists.mp ha
    have ihh := ih (fun x hx => hpre x (List.mem_cons_of_mem a hx))
    constructor
    · simp only [List.cons_append, loadLoop, hv, List.filterMap_cons, List.append_eq, ihh.1]
    · simp only [List.cons_append, loadLoop, hv, List.length_cons, List.append_eq, ihh.2]

/-- Witness for the amended C1: with one valid entry before the invalid one
and one valid entry after it, exactly the first entry is loaded. -/
theorem C1_witness :
    loadLoop exEnv ["ep1"] ([goodEntry "am1"] ++ badEntry :: [goodEntry "am3"]) =
      ([goodEntry "am1"] : List AttackStrategyEntry).filterMap (resolveEntry exEnv ["ep1"]) ∧
    (loadLoop exEnv ["ep1"] ([goodEntry "am1"] ++ badEntry :: [goodEntry "am3"])).length =
      ([goodEntry "am1"] : List AttackStrategyEntry).length :=
  C1_resolution_prefix exEnv ["ep1"] [goodEntry "am1"] [goodEntry "am3"] badEntry
    (by decide) rfl

/-- C2 counterexample: with two loaded modules of which the first raises
during `execute()`, the second module never starts (its start event is
absent from the trace) and the exception propagates out of the loop instead
of being recorded as a failed entry while execution continues. -/
theorem C2_counterexample :
    (runLoop exEnv 0 [boomModule, okModule "am2"]).1 = [RtEvent.start 0] ∧
    RtEvent.start 1 ∉ (runLoop exEnv 0 [boomModule, okModule "am2"]).1 ∧
    (runLoop exEnv 0 [boomModule, okModule "am2"]).2.2 = some "boom" :=
  ⟨by decide, by decide, by decide⟩

/-- C2 as amended: an exception raised during a module's `execute()` is not
caught at the module boundary — the modules before it run to completion, the
failing module starts, the exception propagates out of `generate`, and no
later module in the queue ever begins. -/
theorem C2_execution_abort (env : RtEnv) (pre post : List AttackModuleArguments)
    (m : AttackModuleArguments) (e : String)
    (hpre : ∀ x ∈ pre, (env.execResult x).isOk = true)
    (hm : env.execResult m = Except.error e) :
    ∃ rs, runLoop env 0 (pre ++ m :: post) =
      (okTrace 0 pre.length ++ [RtEvent.start pre.length], rs, some e) := by
  obtain ⟨rs, h⟩ := runLoop_aborts_aux env m e hm pre 0 post hpre
  rw [Nat.zero_add] at h
  exact ⟨rs, h⟩

/-- Witness for the amended C2: one successful module before the raising
one, one queued after it. -/
theorem C2_witness :
    ∃ rs, runLoop exEnv 0 ([okModule "am1"] ++ boomModule :: [okModule "am2"]) =
      (okTrace 0 ([okModule "am1"] : List AttackModuleArguments).length ++
        [RtEvent.start ([okModule "am1"] : List AttackModuleArguments).length],
       rs, some "boom") :=
  C2_execution_abort exEnv [okModule "am1"] [okModule "am2"] boomModule "boom"
    (by decide) rfl

/-- C4: `RedTeaming.generate` does not return an `ExecutionReport` — at the
concrete configuration `raOneGood` the single module fully executes and
produces a response, yet `generate` returns the empty dict (`return {}`,
line 139), silently dropping the collected responses, contrary to the claim
and to the function's own docstring. -/
theorem C4_silent_empty_report :
    (runLoop exEnv 0 (loadPhase exEnv ["ep1"] raOneGood)).1 =
      [RtEvent.start 0, RtEvent.finish 0] ∧
    (runLoop exEnv 0 (loadPhase exEnv ["ep1"] raOneGood)).2.1 = ["ok:am1"] ∧
    generateRun exEnv ["ep1"] raOneGood = Except.ok [] :=
  ⟨by decide, by decide, rfl⟩

/-- C5: execution is strictly sequential and ordered — whenever module `j`
of the loaded execution set starts, the trace up to that point consists
exactly of the start/finish pairs of modules `0 .. j-1` in configuration
order: module `j` never begins until every earlier module's `execute()` has
fully completed. -/
theorem C5_sequential_execution (env : RtEnv) (endpoints : List String)
    (ra : RunnerArgs) (j : Nat)
    (hj : RtEvent.start j ∈ (runLoop env 0 (loadPhase env endpoints ra)).1) :
    ∃ rest, (runLoop env 0 (loadPhase env endpoints ra)).1 =
      okTrace 0 j ++ RtEvent.start j :: rest := by
  have h0 : RtEvent.start (0 + j) ∈ (runLoop env 0 (loadPhase env endpoints ra)).1 := by
    rw [Nat.zero_add]; exact hj
  obtain ⟨rest, hr⟩ := runLoop_start_shape env (loadPhase env endpoints ra) 0 j h0
  rw [Nat.zero_add] at hr
  exact ⟨rest, hr⟩

/-- Witness for C5: with two loaded modules, the second one's start is
preceded by the first one's complete start/finish pair. -/
theorem C5_witness :
    ∃ rest, (runLoop exEnv 0 (loadPhase exEnv ["ep1"] raTwoGood)).1 =
      okTrace 0 1 ++ RtEvent.start 1 :: rest :=
  C5_sequential_execution exEnv ["ep1"] raTwoGood 1 (by decide)

/-- C9: every `AttackModuleArguments` value constructed by
`RedTeaming.generate` has `num_of_prompts = 0` — the constructor call at
line 106 passes the literal `0`, ignoring the `num_of_prompts` value of
`runner_args` (which is quantified over here, including via
`ra.num_of_prompts`). -/
theorem C9_num_of_prompts_zero (env : RtEnv) (endpoints : List String)
    (ra : RunnerArgs) (m : AttackModuleArguments)
    (hm : m ∈ loadPhase env endpoints ra) : m.num_of_prompts = 0 := by
  unfold loadPhase at hm
  split at hm
  · split at hm
    · obtain ⟨e, he⟩ := loadLoop_mem env endpoints _ m hm
      exact resolveEntry_num_of_prompts env endpoints e m he
    · simp at hm
  · simp at hm

/-- Witness for C9 at a configuration whose runner args carry
`num_of_prompts = 3`: the constructed arguments still have 0. -/
theorem C9_witness : (okModule "am1").num_of_prompts = 0 :=
  C9_num_of_prompts_zero exEnv ["ep1"] raOneGood (okModule "am1") (by decide)

/-- C8: with an active session, the context-strategy identifier and the
number of previous prompts in the attack strategy constructed by
`run_attack_module` come solely from the active session's stored values;
two invocations that differ only in the `--context_strategy` and
`--num_of_prev_prompts` command-line arguments behave identically (in
particular they pass identical runner arguments to `run_red_teaming`). -/
theorem C8_context_strategy_from_session (s : ActiveSession) (args : CliArgs)
    (env : CliEnv) (cs1 cs2 n1 n2 : Option String) :
    (buildRunnerArgs s args).attack_strategies.map CliAttackStrategy.context_strategy_info =
      [if s.context_strategy ≠ "" then
         [{ context_strategy_id := s.context_strategy
            num_of_prev_prompts := s.cs_num_of_prev_prompts }]
       else []] ∧
    runAttackModule (some s)
        { args with context_strategy := cs1, num_of_prev_prompts := n1 } env =
      runAttackModule (some s)
        { args with context_strategy := cs2, num_of_prev_prompts := n2 } env := by
  constructor
  · by_cases hcs : s.context_strategy = "" <;> simp [buildRunnerArgs, hcs]
  · rfl

/-- C10: with no active session, both `manual_red_teaming` and
`run_attack_module` print the no-active-session message and return at once:
no runner is loaded, no red teaming runs, no session state is touched. -/
theorem C10_no_active_session (user_prompt : String) (args : CliArgs) (env : CliEnv) :
    manualRedTeaming none user_prompt env = ([CliEffect.printMsg noSessionMsg], none) ∧
    runAttackModule none args env = ([CliEffect.printMsg noSessionMsg], none) :=
  ⟨rfl, rfl⟩
